import Mathlib

/-!
Verification of the SkillSwap front-end data-access and identity layer.

The development shallowly embeds the JavaScript modules
`src/frontend/src/services/api.js`, `src/contexts/AuthContext.jsx`,
`src/hooks/useErrorHandler.js` and the mock API layer of
`src/frontend/src/App.jsx`. JavaScript values are modelled by the
inductive type `JVal`; member access `a.b` (which throws a TypeError on
null and undefined) is `jget`, optional chaining `a?.b` is `optChain`,
and the short-circuiting `a || b` is `jsOr` over JS truthiness.
-/

namespace SkillSwap

/-- A JavaScript value: undefined, null, booleans, numbers (the program only
uses integral numbers), strings, arrays and plain objects given as ordered
field lists. -/
inductive JVal where
  | undefined : JVal
  | null : JVal
  | bool : Bool → JVal
  | num : Int → JVal
  | str : String → JVal
  | arr : List JVal → JVal
  | obj : List (String × JVal) → JVal

/-- First-match field lookup in an object's field list. -/
def lookupField : List (String × JVal) → String → Option JVal
  | [], _ => none
  | (k', v) :: rest, k => if k' == k then some v else lookupField rest k

/-- JS truthiness: undefined, null, false, 0 and the empty string are falsy;
every array and object (empty or not) is truthy. -/
def truthy : JVal → Bool
  | .undefined => false
  | .null => false
  | .bool b => b
  | .num n => n != 0
  | .str s => s != ""
  | .arr _ => true
  | .obj _ => true

/-- The JS expression `a || b`: `a` when truthy, else `b`. -/
def jsOr (a b : JVal) : JVal := if truthy a then a else b

/-- Property read on a value already known not to be null or undefined.
Arrays and strings expose `length`; missing object fields read as
undefined; property reads on other primitives give undefined. -/
def jprop : JVal → String → JVal
  | .obj fs, k => (lookupField fs k).getD .undefined
  | .arr xs, k => if k == "length" then .num xs.length else .undefined
  | .str s, k => if k == "length" then .num s.length else .undefined
  | _, _ => .undefined

/-- Plain member access `a.k`: throws a TypeError when `a` is null or
undefined, otherwise reads the property. -/
def jget (v : JVal) (k : String) : Except String JVal :=
  match v with
  | .undefined => .error ("TypeError: cannot read properties of undefined, reading " ++ k)
  | .null => .error ("TypeError: cannot read properties of null, reading " ++ k)
  | _ => .ok (jprop v k)

/-- Optional chaining `a?.k`: undefined when `a` is null or undefined,
otherwise the property read. -/
def optChain (v : JVal) (k : String) : JVal :=
  match v with
  | .undefined => .undefined
  | .null => .undefined
  | _ => jprop v k

/-- JS strict equality of a value against a number literal, as in
`status === 401`. -/
def strictEqNum (v : JVal) (n : Int) : Bool :=
  match v with
  | .num m => m == n
  | _ => false

/-! ## api.js: response transformers -/

/-- `transformTaskResponse` from api.js: the `tasks` field of the payload,
else `items`, else the payload wrapped in a one-element array; `count`
from the payload, else `tasks.length` when a truthy `tasks` field exists,
else 1; `message` passed through. Member accesses on `response.data`
throw when `data` is null or undefined. -/
def transformTaskResponse (response : JVal) : Except String JVal := do
  let data ← jget response "data"
  let tasks ← jget data "tasks"
  let items ← jget data "items"
  let count ← jget data "count"
  let message ← jget data "message"
  pure (.obj
    [ ("tasks", jsOr tasks (jsOr items (.arr [data])))
    , ("count", jsOr count (if truthy tasks then jprop tasks "length" else .num 1))
    , ("message", message) ])

/-- `transformRatingResponse` from api.js: the `ratings` field of the
payload, else the payload wrapped in a one-element array; `statistics`
from the payload, else the zero default. -/
def transformRatingResponse (response : JVal) : Except String JVal := do
  let data ← jget response "data"
  let ratings ← jget data "ratings"
  let statistics ← jget data "statistics"
  pure (.obj
    [ ("ratings", jsOr ratings (.arr [data]))
    , ("statistics", jsOr statistics
        (.obj [("average_rating", .num 0), ("total_ratings", .num 0)])) ])

/-- Whether an Except computation produced a value (did not throw). -/
def succeeded : Except String JVal → Bool
  | .ok _ => true
  | .error _ => false

/-! ## api.js: identity store and interceptors -/

/-- The module-level identity store of api.js: the `currentUser` variable,
initially null, written by `setCurrentUser` and read by `getCurrentUser`
and by the request interceptor. -/
structure ApiState where
  currentUser : JVal

/-- The initial module state: `let currentUser = null`. -/
def initialApiState : ApiState := { currentUser := .null }

/-- `setCurrentUser(user)`: replaces the stored identity unconditionally. -/
def setCurrentUser (user : JVal) (s : ApiState) : ApiState :=
  { s with currentUser := user }

/-- `getCurrentUser()`: pure read of the stored identity. -/
def getCurrentUser (s : ApiState) : JVal := s.currentUser

/-- The mutable header map of an axios request config. -/
structure RequestConfig where
  headers : List (String × JVal)

/-- JS object property assignment `headers[k] = v`: overwrite in place if
the key exists, else append. -/
def setHeader : List (String × JVal) → String → JVal → List (String × JVal)
  | [], k, v => [(k, v)]
  | (k', v') :: rest, k, v =>
      if k' == k then (k, v) :: rest else (k', v') :: setHeader rest k v

/-- The axios request interceptor of api.js: if `currentUser?.id` is
truthy, set the `x-user-id` header to that id, else to the fallback
string `test-user-123`; return the config. -/
def requestInterceptor (currentUser : JVal) (config : RequestConfig) : RequestConfig :=
  if truthy (optChain currentUser "id") then
    { config with headers := setHeader config.headers "x-user-id" (optChain currentUser "id") }
  else
    { config with headers := setHeader config.headers "x-user-id" (.str "test-user-123") }

/-- The success arm of the axios response interceptor:
`(response) => response`. -/
def responseInterceptorFulfilled (response : JVal) : JVal := response

/-- The failure arm of the axios response interceptor: when
`error.response?.status === 401` log the unauthorized condition, and in
every case reject with the original error. The identity store is neither
read nor written, so it is returned as received. -/
def responseInterceptorRejected (error : JVal) (s : ApiState) :
    Except String (List String × Except JVal JVal × ApiState) := do
  let resp ← jget error "response"
  let logs := if strictEqNum (optChain resp "status") 401
    then ["Unauthorized access"] else []
  pure (logs, Except.error error, s)

/-! ## api.js: resource access functions -/

inductive Method where
  | get : Method
  | post : Method
  | put : Method
  | delete : Method

/-- One HTTP call handed to the axios client: method, route, optional JSON
body, optional query parameters. -/
structure HttpRequest where
  method : Method
  url : String
  body : Option JVal
  params : Option JVal

/-- `apiClient.get(url, cfg)`: issues one GET request. -/
def clientGet (url : String) (params : Option JVal) : List HttpRequest :=
  [{ method := Method.get, url := url, body := none, params := params }]

/-- `apiClient.post(url)` / `apiClient.post(url, body, cfg)`: issues one
POST request. -/
def clientPost (url : String) (body : Option JVal) (params : Option JVal) : List HttpRequest :=
  [{ method := Method.post, url := url, body := body, params := params }]

/-- `apiClient.put(url, body)`: issues one PUT request. -/
def clientPut (url : String) (body : Option JVal) : List HttpRequest :=
  [{ method := Method.put, url := url, body := body, params := none }]

/-- `apiClient.delete(url)`: issues one DELETE request. -/
def clientDelete (url : String) : List HttpRequest :=
  [{ method := Method.delete, url := url, body := none, params := none }]

namespace apiService

/-- `updateProfile: (data) => apiClient.put('/users/', data)`. -/
def updateProfile (data : JVal) : List HttpRequest := clientPut "/users/" (some data)

/-- `acceptTask: (taskId) => apiClient.post('/tasks/' + taskId + '/accept')`,
written in the source as a template literal; no body argument is passed. -/
def acceptTask (taskId : String) : List HttpRequest :=
  clientPost ("/tasks/" ++ taskId ++ "/accept") none none

/-- `completeTask: (taskId) => apiClient.post('/tasks/' + taskId + '/complete')`. -/
def completeTask (taskId : String) : List HttpRequest :=
  clientPost ("/tasks/" ++ taskId ++ "/complete") none none

end apiService

/-! ## AuthContext.jsx: auth binding -/

/-- The AuthProvider component state together with the api.js module
state it mirrors into: `user` and `loading` are the React state of the
provider, `api` is the identity store read by the request interceptor. -/
structure AuthState where
  api : ApiState
  user : JVal
  loading : Bool

/-- `updateUser(userData)` from AuthContext.jsx: sets the provider's
`user` state and calls `setCurrentUser` so the API client's reference is
updated too. -/
def updateUser (userData : JVal) (s : AuthState) : AuthState :=
  { s with user := userData, api := setCurrentUser userData s.api }

/-- `login(userData)`: delegates to `updateUser`. -/
def login (userData : JVal) (s : AuthState) : AuthState := updateUser userData s

/-- `logout()`: delegates to `updateUser(null)`. -/
def logout (s : AuthState) : AuthState := updateUser .null s

/-- The synthetic test user installed by the mount effect of AuthProvider. -/
def testUser : JVal := .obj
  [ ("id", .str "test-user-123")
  , ("full_name", .str "Test User")
  , ("email", .str "test@example.com") ]

/-- The AuthProvider mount effect: install the synthetic identity, then
clear the loading flag. -/
def authMountEffect (s : AuthState) : AuthState :=
  { updateUser testUser s with loading := false }

/-! ## useErrorHandler.js -/

/-- `handleError(error)` from useErrorHandler.js: the message stored into
the error state is `error.response?.data?.detail || 'An unexpected error
occurred'`. The leading access `error.response` is a plain member access. -/
def handleError (error : JVal) : Except String JVal := do
  let resp ← jget error "response"
  pure (jsOr (optChain (optChain resp "data") "detail")
    (.str "An unexpected error occurred"))

/-! ## App.jsx: mock API service -/

/-- The `mockUser` constant of App.jsx. -/
def mockUserFields : List (String × JVal) :=
  [ ("id", .str "test-user-123")
  , ("full_name", .str "John Doe")
  , ("email", .str "john@example.com")
  , ("skill", .str "Web Development")
  , ("bio", .str "Experienced full-stack developer")
  , ("is_active", .bool true) ]

def mockUser : JVal := .obj mockUserFields

/-- Object spread of two field lists, modelled up to key order: property
lookup prefers the second operand, falling back to the first, exactly as
JS property access does on the spread result. -/
def spreadFields (base over : List (String × JVal)) : List (String × JVal) :=
  over ++ base

/-- The mock `updateProfile` of App.jsx: spread of `mockUser` then the
partial-update payload, so payload fields win. -/
def mockUpdateProfile (data : List (String × JVal)) : JVal :=
  .obj (spreadFields mockUserFields data)

/-! ## Helper lemmas -/

theorem lookupField_setHeader (hs : List (String × JVal)) (k : String) (v : JVal) :
    lookupField (setHeader hs k v) k = some v := by
  induction hs with
  | nil => simp [setHeader, lookupField]
  | cons head rest ih =>
    obtain ⟨k', v'⟩ := head
    by_cases hk : (k' == k) = true
    · simp [setHeader, hk, lookupField]
    · simp [setHeader, hk, lookupField, ih]

theorem lookupField_append (xs ys : List (String × JVal)) (k : String) :
    lookupField (xs ++ ys) k =
      match lookupField xs k with
      | some v => some v
      | none => lookupField ys k := by
  induction xs with
  | nil => simp [lookupField]
  | cons head rest ih =>
    obtain ⟨k', v'⟩ := head
    by_cases hk : (k' == k) = true
    · simp [lookupField, hk]
    · simp [lookupField, hk, ih]

theorem jget_ok (v : JVal) (k : String) (h1 : v ≠ .null) (h2 : v ≠ .undefined) :
    jget v k = .ok (jprop v k) := by
  cases v <;> simp_all [jget]

/-- Evaluation of the task transform on a response whose data is a plain
object, with the field reads left symbolic. -/
theorem transformTask_obj (fs : List (String × JVal)) :
    transformTaskResponse (.obj [("data", .obj fs)]) =
      .ok (.obj
        [ ("tasks", jsOr (jprop (.obj fs) "tasks")
            (jsOr (jprop (.obj fs) "items") (.arr [.obj fs])))
        , ("count", jsOr (jprop (.obj fs) "count")
            (if truthy (jprop (.obj fs) "tasks")
             then jprop (jprop (.obj fs) "tasks") "length" else .num 1))
        , ("message", jprop (.obj fs) "message") ]) := rfl

/-- Evaluation of the rating transform on a response whose data is a plain
object, with the field reads left symbolic. -/
theorem transformRating_obj (fs : List (String × JVal)) :
    transformRatingResponse (.obj [("data", .obj fs)]) =
      .ok (.obj
        [ ("ratings", jsOr (jprop (.obj fs) "ratings") (.arr [.obj fs]))
        , ("statistics", jsOr (jprop (.obj fs) "statistics")
            (.obj [("average_rating", .num 0), ("total_ratings", .num 0)])) ]) := rfl

/-! ## Claim theorems -/

/-- C1: the request interceptor reads the identity store at dispatch time
and sets the `x-user-id` header: when a current user with a non-empty id
is set the header equals that id, and when no identity is set (the store
holds null) the header equals the fallback string `test-user-123`. -/
theorem C1_request_header_identity (currentUser : JVal) (config : RequestConfig)
    (id : String) :
    (optChain currentUser "id" = .str id → id ≠ "" →
      lookupField (requestInterceptor currentUser config).headers "x-user-id" =
        some (.str id)) ∧
    (currentUser = .null →
      lookupField (requestInterceptor currentUser config).headers "x-user-id" =
        some (.str "test-user-123")) := by
  constructor
  · intro h hne
    have ht : truthy (JVal.str id) = true := by
      simp [truthy, bne_iff_ne, hne]
    simp [requestInterceptor, h, ht, lookupField_setHeader]
  · intro h
    subst h
    simp [requestInterceptor, optChain, truthy, lookupField_setHeader]

theorem C1_request_header_identity_witness :
    lookupField (requestInterceptor (.obj [("id", .str "alice")])
      { headers := [] }).headers "x-user-id" = some (.str "alice") ∧
    lookupField (requestInterceptor .null { headers := [] }).headers "x-user-id" =
      some (.str "test-user-123") :=
  ⟨(C1_request_header_identity (.obj [("id", .str "alice")]) { headers := [] }
      "alice").1 rfl (by decide),
   (C1_request_header_identity .null { headers := [] } "alice").2 rfl⟩

/-- C10: an identity whose id is the empty string, or whose id read gives
undefined (missing field, or no identity at all), is treated exactly like
no identity: the header is the fallback `test-user-123`; and for every
possible identity-store content the dispatched request carries a truthy
(in particular present and non-empty) `x-user-id` header. -/
theorem C10_empty_identity_fallback (currentUser : JVal) (config : RequestConfig) :
    ((optChain currentUser "id" = .str "" ∨ optChain currentUser "id" = .undefined) →
      lookupField (requestInterceptor currentUser config).headers "x-user-id" =
        some (.str "test-user-123")) ∧
    (∃ v, lookupField (requestInterceptor currentUser config).headers "x-user-id" =
        some v ∧ truthy v = true) := by
  constructor
  · intro h
    have ht : truthy (optChain currentUser "id") = false := by
      rcases h with h | h <;> rw [h] <;> rfl
    simp [requestInterceptor, ht, lookupField_setHeader]
  · by_cases ht : truthy (optChain currentUser "id") = true
    · exact ⟨optChain currentUser "id",
        by simp [requestInterceptor, ht, lookupField_setHeader], ht⟩
    · exact ⟨.str "test-user-123",
        by simp [requestInterceptor, ht, lookupField_setHeader], rfl⟩

theorem C10_empty_identity_fallback_witness :
    lookupField (requestInterceptor (.obj [("id", .str "")])
      { headers := [] }).headers "x-user-id" = some (.str "test-user-123") ∧
    lookupField (requestInterceptor (.obj [("full_name", .str "No Id")])
      { headers := [] }).headers "x-user-id" = some (.str "test-user-123") :=
  ⟨(C10_empty_identity_fallback (.obj [("id", .str "")]) { headers := [] }).1
      (Or.inl rfl),
   (C10_empty_identity_fallback (.obj [("full_name", .str "No Id")])
      { headers := [] }).1 (Or.inr rfl)⟩

/-- C5: every identity mutation through the auth binding is reflected in
the identity store the API client reads: after `login(u)` an immediate
`getCurrentUser` returns `u`, after `logout()` it returns null (none),
and after any `updateUser` the provider state and the store agree. -/
theorem C5_auth_binding_consistency (s : AuthState) (u : JVal) :
    getCurrentUser (login u s).api = u ∧
    (login u s).user = u ∧
    getCurrentUser (logout s).api = .null ∧
    (logout s).user = .null ∧
    (∀ d : JVal, (updateUser d s).user = getCurrentUser (updateUser d s).api) :=
  ⟨rfl, rfl, rfl, rfl, fun _ => rfl⟩

/-- C7: `acceptTask(t)` issues exactly one HTTP request, a POST to
`/tasks/` ++ t ++ `/accept`, with no request body. -/
theorem C7_acceptTask_single_post (t : String) :
    apiService.acceptTask t =
      [{ method := Method.post, url := "/tasks/" ++ t ++ "/accept",
         body := none, params := none }] ∧
    (apiService.acceptTask t).length = 1 :=
  ⟨rfl, rfl⟩

/-- C2 counterexample: the claim fails at two concrete payloads. For an
`items` field holding two tasks and no `tasks` or `count` field, the
transform outputs count 1, not the chosen sequence's length 2 demanded by
the claim; and for a payload whose `count` field is present with value 0
alongside a one-element `tasks` field, the transform outputs
`tasks.length` 1, not the present count 0 demanded by the claim. -/
theorem C2_count_counterexample :
    (transformTaskResponse (.obj [("data", .obj [("items",
        .arr [.obj [("task_id", .str "t1")], .obj [("task_id", .str "t2")]])])]) =
      .ok (.obj
        [ ("tasks", .arr [.obj [("task_id", .str "t1")], .obj [("task_id", .str "t2")]])
        , ("count", .num 1)
        , ("message", .undefined) ]) ∧
      JVal.num 1 ≠ JVal.num 2) ∧
    (transformTaskResponse (.obj [("data", .obj
        [("tasks", .arr [.obj [("task_id", .str "t1")]]), ("count", .num 0)])]) =
      .ok (.obj
        [ ("tasks", .arr [.obj [("task_id", .str "t1")]])
        , ("count", .num 1)
        , ("message", .undefined) ]) ∧
      JVal.num 1 ≠ JVal.num 0) := by
  refine ⟨⟨rfl, ?_⟩, ⟨rfl, ?_⟩⟩ <;>
    · intro h
      injection h with h'
      omega

/-- C2 amended: the task transform chooses `tasks`, else `items`, else
wraps the payload; `count` is the payload's count when present and
non-zero, and otherwise (count absent or zero) it is `tasks.length` when
a `tasks` field is present, else 1 — in particular an `items`-only
payload gets count 1 regardless of how many items it holds. The six
conjuncts cover every combination of the chosen sequence (`tasks`
present; `items` present without `tasks`; neither) with the count field
(present non-zero; absent or present zero). -/
theorem C2_task_transform_amended (fs : List (String × JVal)) (ts its : List JVal)
    (c : Int) :
    (lookupField fs "tasks" = some (.arr ts) →
     lookupField fs "count" = some (.num c) → c ≠ 0 →
      transformTaskResponse (.obj [("data", .obj fs)]) =
        .ok (.obj [("tasks", .arr ts), ("count", .num c),
                   ("message", jprop (.obj fs) "message")])) ∧
    (lookupField fs "tasks" = some (.arr ts) →
     (lookupField fs "count" = none ∨ lookupField fs "count" = some (.num 0)) →
      transformTaskResponse (.obj [("data", .obj fs)]) =
        .ok (.obj [("tasks", .arr ts), ("count", .num ts.length),
                   ("message", jprop (.obj fs) "message")])) ∧
    (lookupField fs "tasks" = none → lookupField fs "items" = some (.arr its) →
     lookupField fs "count" = some (.num c) → c ≠ 0 →
      transformTaskResponse (.obj [("data", .obj fs)]) =
        .ok (.obj [("tasks", .arr its), ("count", .num c),
                   ("message", jprop (.obj fs) "message")])) ∧
    (lookupField fs "tasks" = none → lookupField fs "items" = some (.arr its) →
     (lookupField fs "count" = none ∨ lookupField fs "count" = some (.num 0)) →
      transformTaskResponse (.obj [("data", .obj fs)]) =
        .ok (.obj [("tasks", .arr its), ("count", .num 1),
                   ("message", jprop (.obj fs) "message")])) ∧
    (lookupField fs "tasks" = none → lookupField fs "items" = none →
     lookupField fs "count" = some (.num c) → c ≠ 0 →
      transformTaskResponse (.obj [("data", .obj fs)]) =
        .ok (.obj [("tasks", .arr [.obj fs]), ("count", .num c),
                   ("message", jprop (.obj fs) "message")])) ∧
    (lookupField fs "tasks" = none → lookupField fs "items" = none →
     (lookupField fs "count" = none ∨ lookupField fs "count" = some (.num 0)) →
      transformTaskResponse (.obj [("data", .obj fs)]) =
        .ok (.obj [("tasks", .arr [.obj fs]), ("count", .num 1),
                   ("message", jprop (.obj fs) "message")])) := by
  refine ⟨?_, ?_, ?_, ?_, ?_, ?_⟩
  · intro h1 h2 hc
    rw [transformTask_obj]
    have htc : truthy (JVal.num c) = true := by simp [truthy, bne_iff_ne, hc]
    simp [jprop, h1, h2, jsOr, truthy, htc, hc]
  · intro h1 h2
    rw [transformTask_obj]
    rcases h2 with h2 | h2 <;> simp [jprop, h1, h2, jsOr, truthy]
  · intro h1 h2 h3 hc
    rw [transformTask_obj]
    have htc : truthy (JVal.num c) = true := by simp [truthy, bne_iff_ne, hc]
    simp [jprop, h1, h2, h3, jsOr, truthy, htc, hc]
  · intro h1 h2 h3
    rw [transformTask_obj]
    rcases h3 with h3 | h3 <;> simp [jprop, h1, h2, h3, jsOr, truthy]
  · intro h1 h2 h3 hc
    rw [transformTask_obj]
    have htc : truthy (JVal.num c) = true := by simp [truthy, bne_iff_ne, hc]
    simp [jprop, h1, h2, h3, jsOr, truthy, htc, hc]
  · intro h1 h2 h3
    rw [transformTask_obj]
    rcases h3 with h3 | h3 <;> simp [jprop, h1, h2, h3, jsOr, truthy]

/-- Witness for the amended C2, exercising a zero count alongside tasks
(count becomes the length), an items-only payload with two items (count
becomes 1), and a non-zero count with no tasks field (count kept). -/
theorem C2_task_transform_amended_witness :
    transformTaskResponse (.obj [("data", .obj
        [("tasks", .arr [.obj [], .obj []]), ("count", .num 0)])]) =
      .ok (.obj [("tasks", .arr [.obj [], .obj []]), ("count", .num 2),
                 ("message", .undefined)]) ∧
    transformTaskResponse (.obj [("data", .obj [("items", .arr [.obj [], .obj []])])]) =
      .ok (.obj [("tasks", .arr [.obj [], .obj []]), ("count", .num 1),
                 ("message", .undefined)]) ∧
    transformTaskResponse (.obj [("data", .obj [("count", .num 7)])]) =
      .ok (.obj [("tasks", .arr [.obj [("count", .num 7)]]), ("count", .num 7),
                 ("message", .undefined)]) :=
  ⟨(C2_task_transform_amended [("tasks", .arr [.obj [], .obj []]), ("count", .num 0)]
      [.obj [], .obj []] [] 1).2.1 rfl (Or.inr rfl),
   (C2_task_transform_amended [("items", .arr [.obj [], .obj []])]
      [] [.obj [], .obj []] 1).2.2.2.1 rfl rfl (Or.inl rfl),
   (C2_task_transform_amended [("count", .num 7)] [] [] 7).2.2.2.2.1
      rfl rfl rfl (by decide)⟩

/-- C4: the rating transform outputs the payload's `ratings` field when
present (else the payload wrapped in a one-element array) and the
payload's `statistics` field when present (else the zero default), for
each of the four presence combinations. -/
theorem C4_rating_transform (fs : List (String × JVal)) (rs : List JVal)
    (st : List (String × JVal)) :
    (lookupField fs "ratings" = some (.arr rs) →
     lookupField fs "statistics" = some (.obj st) →
      transformRatingResponse (.obj [("data", .obj fs)]) =
        .ok (.obj [("ratings", .arr rs), ("statistics", .obj st)])) ∧
    (lookupField fs "ratings" = some (.arr rs) →
     lookupField fs "statistics" = none →
      transformRatingResponse (.obj [("data", .obj fs)]) =
        .ok (.obj [("ratings", .arr rs),
          ("statistics", .obj [("average_rating", .num 0), ("total_ratings", .num 0)])])) ∧
    (lookupField fs "ratings" = none →
     lookupField fs "statistics" = some (.obj st) →
      transformRatingResponse (.obj [("data", .obj fs)]) =
        .ok (.obj [("ratings", .arr [.obj fs]), ("statistics", .obj st)])) ∧
    (lookupField fs "ratings" = none →
     lookupField fs "statistics" = none →
      transformRatingResponse (.obj [("data", .obj fs)]) =
        .ok (.obj [("ratings", .arr [.obj fs]),
          ("statistics", .obj [("average_rating", .num 0), ("total_ratings", .num 0)])])) := by
  refine ⟨?_, ?_, ?_, ?_⟩ <;> intro h1 h2 <;> rw [transformRating_obj] <;>
    simp [jprop, h1, h2, jsOr, truthy]

/-- Witness for C4, checking in particular the claim's concrete instance:
the empty payload maps to itself wrapped in a one-element array plus the
zero statistics. -/
theorem C4_rating_transform_witness :
    transformRatingResponse (.obj [("data", .obj [])]) =
      .ok (.obj [("ratings", .arr [.obj []]),
        ("statistics", .obj [("average_rating", .num 0), ("total_ratings", .num 0)])]) ∧
    transformRatingResponse (.obj [("data", .obj
        [("ratings", .arr [.obj [("rating", .num 5)]]),
         ("statistics", .obj [("average_rating", .num 5), ("total_ratings", .num 1)])])]) =
      .ok (.obj [("ratings", .arr [.obj [("rating", .num 5)]]),
        ("statistics", .obj [("average_rating", .num 5), ("total_ratings", .num 1)])]) :=
  ⟨(C4_rating_transform [] [] []).2.2.2 rfl rfl,
   (C4_rating_transform
      [("ratings", .arr [.obj [("rating", .num 5)]]),
       ("statistics", .obj [("average_rating", .num 5), ("total_ratings", .num 1)])]
      [.obj [("rating", .num 5)]]
      [("average_rating", .num 5), ("total_ratings", .num 1)]).1 rfl rfl⟩

/-- C3 counterexample: the transformers are not total — a response without
a `data` field (so `response.data` is undefined) makes the task transform
throw a TypeError, and a response whose `data` is null makes the rating
transform throw. -/
theorem C3_totality_counterexample :
    succeeded (transformTaskResponse (.obj [])) = false ∧
    succeeded (transformRatingResponse (.obj [("data", .null)])) = false :=
  ⟨rfl, rfl⟩

/-- C3 amended: both transformers return a result and never throw for
every response that is itself not null or undefined and whose `data`
property is not null or undefined; missing optional fields inside the
payload resolve to the documented defaults, and both functions are pure
(they are Lean functions performing no effects). -/
theorem C3_totality_amended (response : JVal)
    (h1 : response ≠ .null) (h2 : response ≠ .undefined)
    (h3 : jprop response "data" ≠ .null) (h4 : jprop response "data" ≠ .undefined) :
    succeeded (transformTaskResponse response) = true ∧
    succeeded (transformRatingResponse response) = true := by
  have hd := jget_ok response "data" h1 h2
  have ht := jget_ok (jprop response "data") "tasks" h3 h4
  have hi := jget_ok (jprop response "data") "items" h3 h4
  have hc := jget_ok (jprop response "data") "count" h3 h4
  have hm := jget_ok (jprop response "data") "message" h3 h4
  have hr := jget_ok (jprop response "data") "ratings" h3 h4
  have hs := jget_ok (jprop response "data") "statistics" h3 h4
  constructor
  · simp [transformTaskResponse, hd, ht, hi, hc, hm, succeeded, Bind.bind, Except.bind,
      pure, Except.pure]
  · simp [transformRatingResponse, hd, hr, hs, succeeded, Bind.bind, Except.bind,
      pure, Except.pure]

theorem C3_totality_amended_witness :
    succeeded (transformTaskResponse (.obj [("data", .obj [])])) = true ∧
    succeeded (transformRatingResponse (.obj [("data", .obj [])])) = true :=
  C3_totality_amended (.obj [("data", .obj [])])
    (by simp) (by simp) (by simp [jprop, lookupField]) (by simp [jprop, lookupField])

/-- C6: a response error carrying HTTP status 401 is propagated to the
caller as a rejected outcome holding the very same error value, the
distinct unauthorized condition is logged, no further request is issued,
and the identity store is returned unchanged, so `getCurrentUser` is
unaffected. -/
theorem C6_unauthorized_propagation (error resp : JVal) (s : ApiState)
    (h1 : jget error "response" = .ok resp)
    (h2 : strictEqNum (optChain resp "status") 401 = true) :
    responseInterceptorRejected error s =
      .ok (["Unauthorized access"], Except.error error, s) ∧
    getCurrentUser s = getCurrentUser s := by
  refine ⟨?_, rfl⟩
  simp [responseInterceptorRejected, h1, h2, Bind.bind, Except.bind, pure, Except.pure]

theorem C6_unauthorized_propagation_witness :
    responseInterceptorRejected (.obj [("response", .obj [("status", .num 401)])])
      initialApiState =
      .ok (["Unauthorized access"],
        Except.error (.obj [("response", .obj [("status", .num 401)])]),
        initialApiState) :=
  (C6_unauthorized_propagation (.obj [("response", .obj [("status", .num 401)])])
    (.obj [("status", .num 401)]) initialApiState rfl rfl).1

/-- C8 counterexample: a server-supplied detail that is present but the
empty string is not surfaced; the handler falls back to the generic
message, because the source uses JS truthiness, not presence. -/
theorem C8_detail_counterexample :
    handleError (.obj [("response", .obj [("data", .obj [("detail", .str "")])])]) =
      .ok (.str "An unexpected error occurred") ∧
    JVal.str "" ≠ JVal.str "An unexpected error occurred" := by
  refine ⟨rfl, ?_⟩
  intro h
  injection h with h'
  simp at h'

/-- C8 amended: the surfaced message is the server detail at
`error.response?.data?.detail` when that read yields a non-empty string,
and the generic fallback when the read yields undefined (detail, data or
response missing — including the transport-failure case with no response
at all) or the empty string. -/
theorem C8_error_detail_amended (error resp : JVal) (d : String)
    (h0 : jget error "response" = .ok resp) :
    (optChain (optChain resp "data") "detail" = .str d → d ≠ "" →
      handleError error = .ok (.str d)) ∧
    (optChain (optChain resp "data") "detail" = .undefined →
      handleError error = .ok (.str "An unexpected error occurred")) ∧
    (optChain (optChain resp "data") "detail" = .str "" →
      handleError error = .ok (.str "An unexpected error occurred")) := by
  refine ⟨?_, ?_, ?_⟩
  · intro h hne
    have ht : truthy (JVal.str d) = true := by simp [truthy, bne_iff_ne, hne]
    simp [handleError, h0, h, ht, jsOr, Bind.bind, Except.bind, pure, Except.pure]
  · intro h
    simp [handleError, h0, h, jsOr, truthy, Bind.bind, Except.bind, pure, Except.pure]
  · intro h
    simp [handleError, h0, h, jsOr, truthy, Bind.bind, Except.bind, pure, Except.pure]

theorem C8_error_detail_amended_witness :
    handleError (.obj [("response", .obj [("data", .obj [("detail", .str "boom")])])]) =
      .ok (.str "boom") ∧
    handleError (.obj [("message", .str "Network Error")]) =
      .ok (.str "An unexpected error occurred") :=
  ⟨(C8_error_detail_amended
      (.obj [("response", .obj [("data", .obj [("detail", .str "boom")])])])
      (.obj [("data", .obj [("detail", .str "boom")])]) "boom" rfl).1 rfl (by decide),
   (C8_error_detail_amended (.obj [("message", .str "Network Error")])
      .undefined "x" rfl).2.1 rfl⟩

/-- C9 counterexample: the mock profile update spreads the payload over
the stored user, so a payload carrying an `id` field replaces the id —
the id is not immutable under profile update for every payload. -/
theorem C9_id_counterexample :
    jprop (mockUpdateProfile [("id", .str "other-user")]) "id" = .str "other-user" ∧
    jprop mockUser "id" = .str "test-user-123" ∧
    JVal.str "other-user" ≠ JVal.str "test-user-123" := by
  refine ⟨rfl, rfl, ?_⟩
  intro h
  injection h with h'
  simp at h'

/-- C9 amended: for every partial-update payload that does not itself
carry an `id` field, the user returned by the mock profile update keeps
the prior user's id, and every field the payload does supply takes the
payload's value in the result. -/
theorem C9_profile_update_amended (fs : List (String × JVal)) :
    (lookupField fs "id" = none →
      jprop (mockUpdateProfile fs) "id" = jprop mockUser "id" ∧
      jprop (mockUpdateProfile fs) "id" = .str "test-user-123") ∧
    (∀ k v, lookupField fs k = some v → jprop (mockUpdateProfile fs) k = v) := by
  constructor
  · intro h
    constructor <;>
      simp [mockUpdateProfile, mockUser, spreadFields, jprop, lookupField_append, h,
        mockUserFields, lookupField]
  · intro k v h
    simp [mockUpdateProfile, spreadFields, jprop, lookupField_append, h]

theorem C9_profile_update_amended_witness :
    jprop (mockUpdateProfile [("full_name", .str "Jane Roe")]) "id" =
      .str "test-user-123" ∧
    jprop (mockUpdateProfile [("full_name", .str "Jane Roe")]) "full_name" =
      .str "Jane Roe" :=
  ⟨((C9_profile_update_amended [("full_name", .str "Jane Roe")]).1 rfl).2,
   (C9_profile_update_amended [("full_name", .str "Jane Roe")]).2
      "full_name" (.str "Jane Roe") rfl⟩

end SkillSwap
